import Mathlib

/-!
Shallow embedding of the game-session coordinator of a two-player
territory-claiming board game (30×30 grid, dice-driven rectangle claims).

The embedding follows the server-side `Game` class: the board is a list of
rows of cell tags, coordinates are integers (clients may send arbitrary
numbers), and operations that in the source can throw on an out-of-range
row access return `Option` values, with `none` marking that crash branch.
-/

namespace WebGame

abbrev Cell := String
abbrev Field := List (List Cell)

def defaultCell : Cell := "default__cell"
def redCell : Cell := "red__cell"
def blueCell : Cell := "blue__cell"

/-- Row access `field[i]` for an integer index: `none` models JS `undefined`
(negative or too-large index). -/
def rowAt (f : Field) (i : Int) : Option (List Cell) :=
  if i < 0 then none else f[i.toNat]?

/-- Entry access `row[j]` for an integer index: `none` models JS `undefined`. -/
def entryAt (r : List Cell) (j : Int) : Option Cell :=
  if j < 0 then none else r[j.toNat]?

/-- Source `field[i][j] === t` for natural indices known to be in range at call
sites (corner and neighbourhood probes on the coordinator's 30×30 field). -/
def cellIs (f : Field) (i j : Nat) (t : Cell) : Bool :=
  (f[i]?.bind (fun r => r[j]?)) = some t

/-- Integer `for` loop range: the values taken by `i` in
`for (i = lo; i <= hi; i++)`. -/
def intRange (lo hi : Int) : List Int :=
  (List.range (hi - lo + 1).toNat).map (fun (k : Nat) => lo + (k : Int))

/-- Source `_generateField`: the 30×30 all-unclaimed board. -/
def generateField : Field :=
  (List.range 30).map (fun _ => (List.range 30).map (fun _ => defaultCell))

/-- Source `_factorization`: for every integer `i` in `[1, n]` dividing `n`, the
pair `(i - 1, n / i - 1)`; the JS sparse-array holes are skipped by its
final `filter`, leaving exactly the divisor entries in increasing order. -/
def factorization (n : Int) : List (Int × Int) :=
  (intRange 1 n).filterMap
    (fun i => if n % i = 0 then some (i - 1, n / i - 1) else none)

/-- Source `_showMoves`: apply each displacement to the start cell under the two
signs (`"+"` adds the offset, anything else subtracts it). -/
def showMoves (primeNumbers : List (Int × Int)) (firstSign secondSign : String)
    (row col : Int) : List (Int × Int) :=
  primeNumbers.map
    (fun item =>
      ((if firstSign = "+" then item.1 + row else row - item.1),
       (if secondSign = "+" then item.2 + col else col - item.2)))

/-- Source `_checkTo`: whether `(row, col)` occurs in the list of candidate cells. -/
def checkTo (moves : List (Int × Int)) (row col : Int) : Bool :=
  moves.any (fun item => item.1 = row && item.2 = col)

/-- Source `_checkWin`: a cumulative score wins at 450. -/
def checkWin (sum : Int) : Bool := 450 ≤ sum

/-- The cells `(i, j)` visited by the nested loops of `_areCellsEmpty` and
`_fillField`: rows from `min` to `max` of the two row ends, columns likewise,
row-major. -/
def rectCells (rowFrom colFrom rowTo colTo : Int) : List (Int × Int) :=
  let rowF := if rowFrom < rowTo then rowFrom else rowTo
  let colF := if colFrom < colTo then colFrom else colTo
  let rowT := if rowF = rowTo then rowFrom else rowTo
  let colT := if colF = colTo then colFrom else colTo
  (intRange rowF rowT).flatMap (fun i => (intRange colF colT).map (fun j => (i, j)))

/-- One step of the `_areCellsEmpty` scan over the listed cells.  A missing
row (`field[i]` undefined) makes the source throw on `field[i][j]`, modelled
as `none`; a missing entry is JS `undefined`, which is `!== 'default__cell'`
and so yields `false`. -/
def cellsEmptyScan (f : Field) : List (Int × Int) → Option Bool
  | [] => some true
  | (i, j) :: rest =>
    match rowAt f i with
    | none => none
    | some r =>
      match entryAt r j with
      | none => some false
      | some c => if c = defaultCell then cellsEmptyScan f rest else some false

/-- Source `_areCellsEmpty`: every cell of the inclusive rectangle is unclaimed;
`none` is the crash branch (row index outside the field). -/
def areCellsEmpty (f : Field) (rowFrom colFrom rowTo colTo : Int) : Option Bool :=
  cellsEmptyScan f (rectCells rowFrom colFrom rowTo colTo)

/-- Source `field[i][j] = c` assignment for in-range indices; rows or entries that do not
exist are left unchanged (the source only writes cells it has just scanned,
which are in range). -/
def setCell (f : Field) (i j : Int) (c : Cell) : Field :=
  if i < 0 ∨ j < 0 then f
  else
    match f[i.toNat]? with
    | none => f
    | some r => f.set i.toNat (r.set j.toNat c)

/-- Source `_fillField`: claim every cell of the inclusive rectangle for `color`. -/
def fillField (color : String) (f : Field) (rowFrom colFrom rowTo colTo : Int) :
    Field :=
  let type := if color = "r" then redCell else blueCell
  (rectCells rowFrom colFrom rowTo colTo).foldl
    (fun acc ij => setCell acc ij.1 ij.2 type) f

/-- Source `_cellFree`: the unclaimed 4-neighbours of `(row, col)`; the `row + 1`
and `col + 1` probes are guarded by JS truthiness of the row / entry. -/
def cellFree (f : Field) (row col : Nat) : List (Int × Int) :=
  (if row ≠ 0 then
      (if cellIs f (row - 1) col defaultCell then [((row : Int) - 1, (col : Int))] else [])
    else []) ++
  (if col ≠ 0 then
      (if cellIs f row (col - 1) defaultCell then [((row : Int), (col : Int) - 1)] else [])
    else []) ++
  (if (f[row + 1]?).isSome then
      (if cellIs f (row + 1) col defaultCell then [((row : Int) + 1, (col : Int))] else [])
    else []) ++
  (if (f[row]?.bind (fun r => r[col + 1]?)).isSome then
      (if cellIs f row (col + 1) defaultCell then [((row : Int), (col : Int) + 1)] else [])
    else [])

/-- Source `_findFreeCells`: unclaimed cells adjacent to some cell of the color. -/
def findFreeCells (f : Field) (color : String) : List (Int × Int) :=
  let cellColor := if color = "r" then redCell else blueCell
  (List.range 30).flatMap
    (fun i => (List.range 30).flatMap
      (fun j => if cellIs f i j cellColor then cellFree f i j else []))

/-- Source `_findCurrentMove`: the corner already carrying the player's color
(the source checks the four corners in order, last match wins; `[]` when
none matches). -/
def findCurrentMove (f : Field) (color : String) : List Int :=
  let type := if color = "r" then redCell else blueCell
  let fr : List Int := []
  let fr := if cellIs f 0 0 type then [0, 0] else fr
  let fr := if cellIs f 0 29 type then [0, 29] else fr
  let fr := if cellIs f 29 0 type then [29, 0] else fr
  let fr := if cellIs f 29 29 type then [29, 29] else fr
  fr

/-- Source `_findFirstMove`: the corner diagonally opposite a claimed corner. -/
def findFirstMove (f : Field) : List Int :=
  let fr : List Int := []
  let fr := if ¬ cellIs f 0 0 defaultCell then [29, 29] else fr
  let fr := if ¬ cellIs f 0 29 defaultCell then [29, 0] else fr
  let fr := if ¬ cellIs f 29 0 defaultCell then [0, 29] else fr
  let fr := if ¬ cellIs f 29 29 defaultCell then [0, 0] else fr
  fr

/-- Source `_isCornerEmpty`: whether the opponent has moved but this player has
not (a claimed corner whose opposite corner is still unclaimed). -/
def isCornerEmpty (f : Field) : Bool :=
  if ¬ cellIs f 0 0 defaultCell then cellIs f 29 29 defaultCell
  else if ¬ cellIs f 0 29 defaultCell then cellIs f 29 0 defaultCell
  else if ¬ cellIs f 29 0 defaultCell then cellIs f 0 29 defaultCell
  else if ¬ cellIs f 29 29 defaultCell then cellIs f 0 0 defaultCell
  else false

/-- Source `_isFieldEmpty`: all four corners unclaimed. -/
def isFieldEmpty (f : Field) : Bool :=
  cellIs f 0 0 defaultCell && cellIs f 0 29 defaultCell &&
    cellIs f 29 0 defaultCell && cellIs f 29 29 defaultCell

/-- Source `_makeMove`: candidate targets are the dice-sum displacements applied at
`(rowFrom, colFrom)` under the sign convention of the anchor corner `fr`
(read as `fr[0]`, `fr[1]`; an anchor that is no corner leaves the candidate
list empty).  The move passes iff the target is a candidate and the
rectangle is unclaimed; `&&` short-circuits, so the possibly-crashing
rectangle scan only runs when the target matched. -/
def makeMove (f : Field) (fr : List Int) (rowFrom colFrom rowTo colTo d0 d1 : Int) :
    Option Bool :=
  let primeNumbersArray := factorization (d0 + d1)
  let possibleMoves :=
    if fr[0]? = some 0 then
      if fr[1]? = some 0 then showMoves primeNumbersArray "+" "+" rowFrom colFrom
      else showMoves primeNumbersArray "+" "-" rowFrom colFrom
    else if fr[0]? = some 29 then
      if fr[1]? = some 0 then showMoves primeNumbersArray "-" "+" rowFrom colFrom
      else showMoves primeNumbersArray "-" "-" rowFrom colFrom
    else []
  if checkTo possibleMoves rowTo colTo then areCellsEmpty f rowFrom colFrom rowTo colTo
  else some false

/-- Source `_checkMove`: validation of each move after the game's very first one.
Reading `gameField[from[0]][from[1]]` throws when the anchor list is empty
or its row is missing (`none`); an anchor cell still unclaimed means the
mover's own first move (`from` must equal the anchor), otherwise `from`
must be a frontier cell of the color. -/
def checkMove (fr : List Int) (f : Field) (rowFrom colFrom rowTo colTo d0 d1 : Int)
    (color : String) : Option Bool :=
  match fr[0]? with
  | none => none
  | some a =>
    match rowAt f a with
    | none => none
    | some r =>
      let v : Option Cell := (fr[1]?).bind (fun b => entryAt r b)
      if v = some defaultCell then
        if a ≠ rowFrom ∨ fr[1]? ≠ some colFrom then some false
        else makeMove f fr rowFrom colFrom rowTo colTo d0 d1
      else
        if checkTo (findFreeCells f color) rowFrom colFrom then
          makeMove f fr rowFrom colFrom rowTo colTo d0 d1
        else some false

/-- Source `_checkFirstMove`: the very first move of the game; `from` must sit on
no strictly interior row or column, and then the move is validated with
`from` itself as the anchor corner. -/
def checkFirstMove (f : Field) (rowFrom colFrom rowTo colTo d0 d1 : Int) :
    Option Bool :=
  if rowFrom > 0 ∧ rowFrom < 29 then some false
  else if colFrom > 0 ∧ colFrom < 29 then some false
  else makeMove f [rowFrom, colFrom] rowFrom colFrom rowTo colTo d0 d1

/-- A board coordinate as sent by a client. -/
structure Coord where
  row : Int
  col : Int
deriving DecidableEq, Repr

/-- The `move` payload of a `playerMove` message (`PlayerState` in the
protocol): start and target cells, color, client-reported running sum, and
the two dice faces. -/
structure PlayerState where
  fromPos : Coord
  toPos : Coord
  color : String
  sum : Int
  dices : Int × Int
deriving DecidableEq, Repr

/-- Outbound protocol messages. -/
inductive ServerMessage where
  | gameStarted (myTurn : Bool) (field : Field) (color : String) (sum : Int)
  | changePlayer (myTurn : Bool) (field : Field) (color : String)
  | gameResult (win : Bool)
  | gameAborted
  | incorrectRequest (message : String)
deriving DecidableEq, Repr

/-- Inbound protocol messages as dispatched by `_processMessage`. -/
inductive ClientMessage where
  | playerMove (move : PlayerState)
  | repeatGame
  | incorrectRequest (message : String)
  | incorrectResponse (message : String)
  | unknownType (tag : String)
deriving DecidableEq, Repr

/-- The raw payload of a socket message as classified by `_parseMessage`. -/
inductive RawData where
  | notString
  | badJson (err : String)
  | goodMessage (m : ClientMessage)
deriving DecidableEq, Repr

/-- Source `_parseMessage`: non-string data and JSON errors become
`incorrectRequest` values that `_processMessage` then echoes back. -/
def parseMessage : RawData → ClientMessage
  | RawData.notString => ClientMessage.incorrectRequest "Wrong data type"
  | RawData.badJson e =>
      ClientMessage.incorrectRequest ("Cant parse JSON data: " ++ e)
  | RawData.goodMessage m => m

/-- The mutable state of one game session: the field, the two cumulative
scores of `_playersState` (index = seat in `_session`), and `_currentMove`. -/
structure GameState where
  gameField : Field
  score0 : Int
  score1 : Int
  currentMove : Fin 2
deriving DecidableEq, Repr

def scoreOf (s : GameState) (p : Fin 2) : Int :=
  if p = 0 then s.score0 else s.score1

def setScore (s : GameState) (p : Fin 2) (v : Int) : GameState :=
  if p = 0 then { s with score0 := v } else { s with score1 := v }

/-- The `player2` computed by the loop over the two-seat `_session`. -/
def otherPlayer (p : Fin 2) : Fin 2 := if p = 0 then 1 else 0

/-- The state set up by `_sendStartMessage`. -/
def startState : GameState :=
  { gameField := generateField, score0 := 0, score1 := 0, currentMove := 0 }

/-- The `gameStarted` broadcast of `_sendStartMessage`: the first seat gets
the turn and color `r`, the second seat `b`. -/
def startMessages : List (Fin 2 × ServerMessage) :=
  [(0, ServerMessage.gameStarted true generateField "r" 0),
   (1, ServerMessage.gameStarted false generateField "b" 0)]

/-- Anchor resolution plus validation, as performed by `_onPlayerMove` for a
move with `sum = 0`: on an empty field the move is checked as the game's
first move; otherwise the anchor is the opponent's opposite corner (if this
player has not moved yet) or the corner carrying this player's color. -/
def resolveAndValidate (f : Field) (mv : PlayerState) : Option Bool :=
  if isFieldEmpty f then
    checkFirstMove f mv.fromPos.row mv.fromPos.col mv.toPos.row mv.toPos.col
      mv.dices.1 mv.dices.2
  else
    let fr := if isCornerEmpty f then findFirstMove f else findCurrentMove f mv.color
    checkMove fr f mv.fromPos.row mv.fromPos.col mv.toPos.row mv.toPos.col
      mv.dices.1 mv.dices.2 mv.color

/-- Lines 312–357 of `_onPlayerMove`: add the dice total to the mover's
score, compute the win flag over both scores, hand the turn to the other
seat, and emit either the two `changePlayer` messages or the `gameResult`
broadcast. -/
def finishMove (s : GameState) (p : Fin 2) (mv : PlayerState) :
    GameState × List (Fin 2 × ServerMessage) :=
  let ns := setScore s p (scoreOf s p + mv.dices.1 + mv.dices.2)
  let p2 := otherPlayer p
  let winFlag := checkWin (scoreOf ns 0) || checkWin (scoreOf ns 1)
  let s3 := { ns with currentMove := p2 }
  (s3,
   if winFlag then
     [(0, ServerMessage.gameResult (checkWin (scoreOf s3 0))),
      (1, ServerMessage.gameResult (checkWin (scoreOf s3 1)))]
   else
     [(p2, ServerMessage.changePlayer true s3.gameField
          (if mv.color = "r" then "b" else "r")),
      (p, ServerMessage.changePlayer false s3.gameField mv.color)])

/-- Source `_onPlayerMove`: out-of-turn senders are rejected; a move with
`sum = 0` is validated (and the rectangle claimed on success, `wrong move`
sent on failure); any other `sum` skips straight to the score/turn/win
bookkeeping.  `none` is the crash branch escaping from validation. -/
def onPlayerMove (s : GameState) (p : Fin 2) (mv : PlayerState) :
    Option (GameState × List (Fin 2 × ServerMessage)) :=
  if s.currentMove ≠ p then
    some (s, [(p, ServerMessage.incorrectRequest "Not your turn")])
  else if mv.sum = 0 then
    match resolveAndValidate s.gameField mv with
    | none => none
    | some false => some (s, [(p, ServerMessage.incorrectRequest "wrong move")])
    | some true =>
      some (finishMove
        { s with gameField :=
            (fillField mv.color s.gameField mv.fromPos.row mv.fromPos.col
              mv.toPos.row mv.toPos.col) }
        p mv)
  else some (finishMove s p mv)

/-- Source `_processMessage`: dispatch on the message tag. -/
def processMessage (s : GameState) (p : Fin 2) (msg : ClientMessage) :
    Option (GameState × List (Fin 2 × ServerMessage)) :=
  match msg with
  | ClientMessage.playerMove mv => onPlayerMove s p mv
  | ClientMessage.repeatGame => some (startState, startMessages)
  | ClientMessage.incorrectRequest m =>
      some (s, [(p, ServerMessage.incorrectRequest m)])
  | ClientMessage.incorrectResponse _ => some (s, [])
  | ClientMessage.unknownType t =>
      some (s, [(p, ServerMessage.incorrectRequest
        ("Unknown message type: \x22" ++ t ++ "\x22"))])

/-- The socket `message` handler: parse, then process. -/
def handleData (s : GameState) (p : Fin 2) (d : RawData) :
    Option (GameState × List (Fin 2 × ServerMessage)) :=
  processMessage s p (parseMessage d)

/-- Connection readiness of one participant's socket. -/
inductive ReadyState where
  | connecting
  | opened
  | closing
  | closed
deriving DecidableEq, Repr

def isNotClosingOrClosed (st : ReadyState) : Bool :=
  st ≠ ReadyState.closed && st ≠ ReadyState.closing

/-- The part of a session that `destroy` touches: whether `destroy` has
already been overwritten by the no-op (`this.destroy = () => {}`), and the
ready states of the participants' sockets. -/
structure Session where
  destroyed : Bool
  players : List ReadyState
deriving DecidableEq, Repr

/-- Source `destroy`: on the first call, every socket that is neither closing nor
closed is sent `gameAborted` and closed; the method then replaces itself,
so any later call (close event or direct) does nothing. -/
def destroy (s : Session) : Session × List ServerMessage :=
  if s.destroyed then (s, [])
  else
    ({ destroyed := true,
       players := s.players.map
        (fun st => if isNotClosingOrClosed st then ReadyState.closing else st) },
     s.players.filterMap
      (fun st => if isNotClosingOrClosed st then some ServerMessage.gameAborted
                 else none))

/-- Whether an outbound message reports an error (`incorrectRequest`). -/
def isErrorMsg : ServerMessage → Bool
  | ServerMessage.incorrectRequest _ => true
  | _ => false

/-- Whether a round of outbound messages contains an error report; a
`playerMove` is accepted exactly when its round contains none. -/
def hasError (out : List (Fin 2 × ServerMessage)) : Bool :=
  out.any (fun e => isErrorMsg e.2)

/-- Run a sequence of `playerMove` events through `_onPlayerMove`,
collecting the accepted events (those whose message round reported no
error); `none` if some step hit the crash branch. -/
def runTrace (s : GameState) :
    List (Fin 2 × PlayerState) → Option (GameState × List (Fin 2 × PlayerState))
  | [] => some (s, [])
  | (p, mv) :: rest =>
    match onPlayerMove s p mv with
    | none => none
    | some (s1, out) =>
      match runTrace s1 rest with
      | none => none
      | some (sf, acc) =>
        some (sf, if hasError out then acc else (p, mv) :: acc)

end WebGame

namespace WebGame

theorem mem_intRange (lo hi i : Int) : i ∈ intRange lo hi ↔ lo ≤ i ∧ i ≤ hi := by
  constructor
  · intro h
    obtain ⟨k, hk, hEq⟩ := List.mem_map.1 h
    rw [List.mem_range] at hk
    omega
  · rintro ⟨h1, h2⟩
    refine List.mem_map.2 ⟨(i - lo).toNat, List.mem_range.2 (by omega), by omega⟩

theorem mem_factorization (n : Int) (p : Int × Int) :
    p ∈ factorization n ↔
      ∃ i : Int, 1 ≤ i ∧ i ≤ n ∧ n % i = 0 ∧ p = (i - 1, n / i - 1) := by
  simp only [factorization, List.mem_filterMap, mem_intRange]
  constructor
  · rintro ⟨i, ⟨h1, h2⟩, hi⟩
    by_cases hmod : n % i = 0
    · refine ⟨i, h1, h2, hmod, ?_⟩
      simp [hmod] at hi
      exact hi.symm
    · simp [hmod] at hi
  · rintro ⟨i, h1, h2, hmod, rfl⟩
    exact ⟨i, ⟨h1, h2⟩, by simp [hmod]⟩

theorem scoreOf_setScore_self (s : GameState) (p : Fin 2) (v : Int) :
    scoreOf (setScore s p v) p = v := by
  fin_cases p <;> simp [scoreOf, setScore]

theorem scoreOf_setScore_other (s : GameState) (p : Fin 2) (v : Int) :
    scoreOf (setScore s p v) (otherPlayer p) = scoreOf s (otherPlayer p) := by
  fin_cases p <;> simp [scoreOf, setScore, otherPlayer]

theorem gameField_setScore (s : GameState) (p : Fin 2) (v : Int) :
    (setScore s p v).gameField = s.gameField := by
  fin_cases p <;> simp [setScore]

theorem otherPlayer_ne (p : Fin 2) : otherPlayer p ≠ p := by
  fin_cases p <;> simp [otherPlayer]

theorem finishMove_fst (s : GameState) (p : Fin 2) (mv : PlayerState) :
    (finishMove s p mv).1 =
      { setScore s p (scoreOf s p + mv.dices.1 + mv.dices.2) with
          currentMove := otherPlayer p } := rfl

theorem finishMove_snd (s : GameState) (p : Fin 2) (mv : PlayerState) :
    (finishMove s p mv).2 =
      if (checkWin (scoreOf (finishMove s p mv).1 0)
          || checkWin (scoreOf (finishMove s p mv).1 1)) then
        [(0, ServerMessage.gameResult (checkWin (scoreOf (finishMove s p mv).1 0))),
         (1, ServerMessage.gameResult (checkWin (scoreOf (finishMove s p mv).1 1)))]
      else
        [(otherPlayer p, ServerMessage.changePlayer true
            (finishMove s p mv).1.gameField (if mv.color = "r" then "b" else "r")),
         (p, ServerMessage.changePlayer false
            (finishMove s p mv).1.gameField mv.color)] := rfl

theorem finishMove_hasError (s : GameState) (p : Fin 2) (mv : PlayerState) :
    hasError (finishMove s p mv).2 = false := by
  rw [finishMove_snd]
  cases hw : (checkWin (scoreOf (finishMove s p mv).1 0)
      || checkWin (scoreOf (finishMove s p mv).1 1)) <;>
    simp [hw, hasError, isErrorMsg]

theorem onPlayerMove_not_turn (s : GameState) (p : Fin 2) (mv : PlayerState)
    (h : s.currentMove ≠ p) :
    onPlayerMove s p mv =
      some (s, [(p, ServerMessage.incorrectRequest "Not your turn")]) := by
  simp [onPlayerMove, h]

theorem onPlayerMove_skip_validation (s : GameState) (p : Fin 2) (mv : PlayerState)
    (hturn : s.currentMove = p) (hsum : mv.sum ≠ 0) :
    onPlayerMove s p mv = some (finishMove s p mv) := by
  simp [onPlayerMove, hturn, hsum]

theorem onPlayerMove_validate_false (s : GameState) (p : Fin 2) (mv : PlayerState)
    (hturn : s.currentMove = p) (hsum : mv.sum = 0)
    (hv : resolveAndValidate s.gameField mv = some false) :
    onPlayerMove s p mv =
      some (s, [(p, ServerMessage.incorrectRequest "wrong move")]) := by
  simp [onPlayerMove, hturn, hsum, hv]

theorem onPlayerMove_validate_true (s : GameState) (p : Fin 2) (mv : PlayerState)
    (hturn : s.currentMove = p) (hsum : mv.sum = 0)
    (hv : resolveAndValidate s.gameField mv = some true) :
    onPlayerMove s p mv =
      some (finishMove
        { s with gameField :=
            (fillField mv.color s.gameField mv.fromPos.row mv.fromPos.col
              mv.toPos.row mv.toPos.col) }
        p mv) := by
  simp [onPlayerMove, hturn, hsum, hv]

/-- Every outcome of `_onPlayerMove` is either a rejection (state unchanged,
one `incorrectRequest` to the sender) or, for the turn-holder, the
score/turn/win bookkeeping applied to the (possibly just-claimed) field. -/
theorem onPlayerMove_spec (s : GameState) (p : Fin 2) (mv : PlayerState)
    (st' : GameState) (out : List (Fin 2 × ServerMessage))
    (h : onPlayerMove s p mv = some (st', out)) :
    (st' = s ∧ ∃ m, out = [(p, ServerMessage.incorrectRequest m)])
    ∨ (s.currentMove = p ∧ ∃ f2 : Field,
        (st', out) = finishMove { s with gameField := f2 } p mv) := by
  by_cases hturn : s.currentMove = p
  · by_cases hsum : mv.sum = 0
    · rcases hv : resolveAndValidate s.gameField mv with _ | b
      · rw [onPlayerMove, if_neg (by simp [hturn]), if_pos hsum, hv] at h
        simp at h
      · cases b
        · rw [onPlayerMove_validate_false s p mv hturn hsum hv] at h
          injection h with h
          rw [Prod.mk.injEq] at h
          exact Or.inl ⟨h.1.symm, "wrong move", h.2.symm⟩
        · rw [onPlayerMove_validate_true s p mv hturn hsum hv] at h
          injection h with h
          exact Or.inr ⟨hturn, _, h.symm⟩
    · rw [onPlayerMove_skip_validation s p mv hturn hsum] at h
      injection h with h
      exact Or.inr ⟨hturn, s.gameField, h.symm⟩
  · rw [onPlayerMove_not_turn s p mv hturn] at h
    injection h with h
    rw [Prod.mk.injEq] at h
    exact Or.inl ⟨h.1.symm, "Not your turn", h.2.symm⟩

/-- C2: for every dice sum `n` in `[2, 12]`, the displacement set produced
by `_factorization` is exactly the set of pairs `(i - 1, n / i - 1)` over
the integer divisors `i` of `n` with `1 ≤ i ≤ n`; in particular `n = 6`
yields `[(0,5), (1,2), (2,1), (5,0)]`. -/
theorem C2_factorization_is_divisor_pairs (n : Int) (p : Int × Int)
    (h : 2 ≤ n ∧ n ≤ 12) :
    (p ∈ factorization n ↔
      ∃ i : Int, 1 ≤ i ∧ i ≤ n ∧ n % i = 0 ∧ p = (i - 1, n / i - 1))
    ∧ factorization 6 = [(0, 5), (1, 2), (2, 1), (5, 0)] :=
  ⟨mem_factorization n p, by decide⟩

/-- Witness for C2 at `n = 6`, `p = (0, 5)`. -/
theorem C2_factorization_is_divisor_pairs_witness :
    ((2 ≤ (6 : Int) ∧ (6 : Int) ≤ 12)
      ∧ (((0 : Int), (5 : Int)) ∈ factorization 6 ↔
          ∃ i : Int, 1 ≤ i ∧ i ≤ 6 ∧ 6 % i = 0 ∧ ((0 : Int), (5 : Int)) = (i - 1, 6 / i - 1))
      ∧ factorization 6 = [(0, 5), (1, 2), (2, 1), (5, 0)]) :=
  ⟨by decide, C2_factorization_is_divisor_pairs 6 (0, 5) (by decide)⟩

/-- C3 counterexample: on the all-empty board, the move `from = (0,0)`,
`to = (1,1)` with dice `3, 3` starts at a corner and claims a fully
unclaimed rectangle, yet `_checkFirstMove` rejects it (the target `(1,1)`
is not reachable for dice sum 6), and `_onPlayerMove` answers `wrong move`
leaving the state unchanged — so "accepted iff `from` is a corner and the
rectangle is unclaimed" is false as stated. -/
theorem C3_counterexample :
    isFieldEmpty startState.gameField = true
    ∧ areCellsEmpty startState.gameField 0 0 1 1 = some true
    ∧ checkFirstMove startState.gameField 0 0 1 1 3 3 = some false
    ∧ onPlayerMove startState 0
        { fromPos := ⟨0, 0⟩, toPos := ⟨1, 1⟩, color := "r", sum := 0, dices := (3, 3) }
      = some (startState, [(0, ServerMessage.incorrectRequest "wrong move")]) := by
  refine ⟨by decide, by decide, by decide, ?_⟩
  decide

/-- C3 (amended): a first move whose `from` lies on the 30×30 grid is
accepted by `_checkFirstMove` iff `from` is exactly one of the four
corners, the target is reachable from that corner under its sign
convention for the dice sum, and the claimed rectangle is fully
unclaimed. -/
theorem C3_first_move_acceptance (f : Field) (rf cf rt ct d0 d1 : Int)
    (hr : 0 ≤ rf ∧ rf < 30) (hc : 0 ≤ cf ∧ cf < 30) :
    checkFirstMove f rf cf rt ct d0 d1 = some true ↔
      ((rf = 0 ∨ rf = 29) ∧ (cf = 0 ∨ cf = 29)
        ∧ checkTo (showMoves (factorization (d0 + d1))
            (if rf = 0 then "+" else "-") (if cf = 0 then "+" else "-") rf cf)
            rt ct = true
        ∧ areCellsEmpty f rf cf rt ct = some true) := by
  unfold checkFirstMove
  by_cases h1 : rf > 0 ∧ rf < 29
  · rw [if_pos h1]
    constructor
    · intro hff; exact absurd hff (by simp)
    · rintro ⟨hcor, -⟩; exact absurd hcor (by omega)
  · rw [if_neg h1]
    by_cases h2 : cf > 0 ∧ cf < 29
    · rw [if_pos h2]
      constructor
      · intro hff; exact absurd hff (by simp)
      · rintro ⟨-, hcor, -⟩; exact absurd hcor (by omega)
    · rw [if_neg h2]
      have hrf : rf = 0 ∨ rf = 29 := by omega
      have hcf : cf = 0 ∨ cf = 29 := by omega
      unfold makeMove
      rcases hrf with rfl | rfl <;> rcases hcf with rfl | rfl <;>
        · norm_num only
          simp only [List.getElem?_cons_zero, List.getElem?_cons_succ,
            Option.some.injEq, Int.reduceEq, reduceIte]
          cases hct : checkTo (showMoves (factorization (d0 + d1)) _ _ _ _) rt ct <;>
            simp [hct]

/-- Witness for C3 at the spec's example: `from = (0,0)`, `to = (2,1)`,
dice `3, 3` on the all-empty board. -/
theorem C3_first_move_acceptance_witness :
    checkFirstMove generateField 0 0 2 1 3 3 = some true ↔
      (((0 : Int) = 0 ∨ (0 : Int) = 29) ∧ ((0 : Int) = 0 ∨ (0 : Int) = 29)
        ∧ checkTo (showMoves (factorization (3 + 3))
            (if (0 : Int) = 0 then "+" else "-") (if (0 : Int) = 0 then "+" else "-") 0 0)
            2 1 = true
        ∧ areCellsEmpty generateField 0 0 2 1 = some true) :=
  C3_first_move_acceptance generateField 0 0 2 1 3 3 (by decide) (by decide)

theorem factorization_bounds (n : Int) (hn2 : 2 ≤ n) (hn12 : n ≤ 12)
    (p : Int × Int) (hp : p ∈ factorization n) :
    0 ≤ p.1 ∧ p.1 ≤ 11 ∧ 0 ≤ p.2 ∧ p.2 ≤ 11 := by
  obtain ⟨i, h1, h2, hmod, rfl⟩ := (mem_factorization n p).1 hp
  have hdvd : i ∣ n := Int.dvd_of_emod_eq_zero hmod
  have hq : n / i * i = n := Int.ediv_mul_cancel hdvd
  have hq1 : 1 ≤ n / i := by nlinarith [hq]
  have hq12 : n / i ≤ 12 := by nlinarith [hq]
  dsimp only
  omega

theorem checkTo_true_iff (moves : List (Int × Int)) (r c : Int) :
    checkTo moves r c = true ↔ ∃ m ∈ moves, m.1 = r ∧ m.2 = c := by
  simp [checkTo, List.any_eq_true]

theorem mem_rectCells (rf cf rt ct : Int) (c : Int × Int)
    (h : c ∈ rectCells rf cf rt ct) :
    (min rf rt ≤ c.1 ∧ c.1 ≤ max rf rt) ∧ (min cf ct ≤ c.2 ∧ c.2 ≤ max cf ct) := by
  simp only [rectCells, List.mem_flatMap, List.mem_map] at h
  obtain ⟨i, hi, j, hj, rfl⟩ := h
  rw [mem_intRange] at hi hj
  dsimp only
  split_ifs at hi hj <;> omega

theorem cellsEmptyScan_ne_none (f : Field) (cells : List (Int × Int))
    (h : ∀ c ∈ cells, 0 ≤ c.1 ∧ c.1.toNat < f.length) :
    cellsEmptyScan f cells ≠ none := by
  induction cells with
  | nil => simp [cellsEmptyScan]
  | cons hd tl ih =>
    rcases hd with ⟨i, j⟩
    obtain ⟨h0, h1⟩ := h (i, j) (List.mem_cons_self _ _)
    have hrs : (rowAt f i).isSome := by
      unfold rowAt
      rw [if_neg (by omega)]
      simp [List.getElem?_eq_getElem h1]
    obtain ⟨r, hr⟩ := Option.isSome_iff_exists.1 hrs
    simp only [cellsEmptyScan]
    rw [hr]
    cases he : entryAt r j with
    | none => simp [he]
    | some c =>
      by_cases hc : c = defaultCell
      · simpa [he, hc] using ih (fun x hx => h x (List.mem_cons_of_mem _ hx))
      · simp [he, hc]

/-- C10 counterexample: with anchor corner `(0,0)` (signs `+`, `+`), start
cell `(28,0)` and dice sum 6, the target `(33,0)` passes `_checkTo` against
the `_showMoves` candidates, yet its row 33 lies outside `[0,30)`, and the
subsequent `_areCellsEmpty` scan does hit the out-of-range row branch
(`none`) — so reachable targets are not always inside the grid. -/
theorem C10_counterexample :
    checkTo (showMoves (factorization 6) "+" "+" 28 0) 33 0 = true
    ∧ ¬ ((33 : Int) < 30)
    ∧ areCellsEmpty generateField 28 0 33 0 = none := by
  refine ⟨by decide, by decide, by decide⟩

/-- C10 (amended): when the start cell is the anchor corner itself (the
shape of every first move) and the dice faces are honest (each in `[1,6]`),
every target that passes the `_checkTo` reachability check lies inside the
30×30 grid, and the subsequent `_areCellsEmpty` rectangle scan between the
corner and the target never reaches its out-of-range row branch. -/
theorem C10_corner_reachable_targets_in_grid (cr cc d0 d1 rt ct : Int)
    (hcr : cr = 0 ∨ cr = 29) (hcc : cc = 0 ∨ cc = 29)
    (hd0 : 1 ≤ d0 ∧ d0 ≤ 6) (hd1 : 1 ≤ d1 ∧ d1 ≤ 6)
    (h : checkTo (showMoves (factorization (d0 + d1))
          (if cr = 0 then "+" else "-") (if cc = 0 then "+" else "-") cr cc)
          rt ct = true) :
    (0 ≤ rt ∧ rt < 30 ∧ 0 ≤ ct ∧ ct < 30)
    ∧ (∀ f : Field, f.length = 30 → areCellsEmpty f cr cc rt ct ≠ none) := by
  obtain ⟨m, hm, hm1, hm2⟩ := (checkTo_true_iff _ _ _).1 h
  obtain ⟨d, hd, hdm⟩ := List.mem_map.1 hm
  have hb := factorization_bounds (d0 + d1) (by omega) (by omega) d hd
  have hbounds : 0 ≤ rt ∧ rt < 30 ∧ 0 ≤ ct ∧ ct < 30 := by
    subst hdm
    rcases hcr with rfl | rfl <;> rcases hcc with rfl | rfl <;>
      · simp only [Int.reduceEq, reduceIte] at hm1 hm2
        simp at hm1 hm2
        omega
  refine ⟨hbounds, ?_⟩
  intro f hf
  apply cellsEmptyScan_ne_none
  intro cel hcel
  have hcb := mem_rectCells cr cc rt ct cel hcel
  rw [hf]
  rcases hcr with rfl | rfl <;> omega

theorem scoreOf_set_gameField (s : GameState) (f : Field) (r : Fin 2) :
    scoreOf { s with gameField := f } r = scoreOf s r := rfl

theorem finishMove_state_facts (s : GameState) (p : Fin 2) (mv : PlayerState) :
    (finishMove s p mv).1.gameField = s.gameField
    ∧ scoreOf (finishMove s p mv).1 p = scoreOf s p + mv.dices.1 + mv.dices.2
    ∧ scoreOf (finishMove s p mv).1 (otherPlayer p) = scoreOf s (otherPlayer p)
    ∧ (finishMove s p mv).1.currentMove = otherPlayer p := by
  fin_cases p <;>
    exact ⟨rfl, by simp [finishMove, scoreOf, setScore, otherPlayer],
      by simp [finishMove, scoreOf, setScore, otherPlayer], rfl⟩

/-- C1 (amended): for a `playerMove` by the turn-holder whose `move.sum` is
zero, the coordinator resolves the anchor and validates: a failed
validation is answered `wrong move` with the state untouched, and any
accepted outcome implies the validation succeeded, the board gained exactly
the claimed rectangle, the mover's score grew by the dice total (the
other's unchanged), and the turn flipped. -/
theorem C1_validation_gates_sum_zero_moves (s : GameState) (p : Fin 2)
    (mv : PlayerState) (hturn : s.currentMove = p) (hsum : mv.sum = 0) :
    (resolveAndValidate s.gameField mv = some false →
      onPlayerMove s p mv =
        some (s, [(p, ServerMessage.incorrectRequest "wrong move")]))
    ∧ (∀ st' out, onPlayerMove s p mv = some (st', out) → hasError out = false →
        resolveAndValidate s.gameField mv = some true
        ∧ st'.gameField = fillField mv.color s.gameField mv.fromPos.row
            mv.fromPos.col mv.toPos.row mv.toPos.col
        ∧ scoreOf st' p = scoreOf s p + mv.dices.1 + mv.dices.2
        ∧ scoreOf st' (otherPlayer p) = scoreOf s (otherPlayer p)
        ∧ st'.currentMove = otherPlayer p) := by
  refine ⟨onPlayerMove_validate_false s p mv hturn hsum, ?_⟩
  intro st' out hstep herr
  rcases hv : resolveAndValidate s.gameField mv with _ | b
  · rw [onPlayerMove, if_neg (by simp [hturn]), if_pos hsum, hv] at hstep
    simp at hstep
  · cases b
    · rw [onPlayerMove_validate_false s p mv hturn hsum hv] at hstep
      injection hstep with hstep
      rw [Prod.mk.injEq] at hstep
      rw [← hstep.2] at herr
      simp [hasError, isErrorMsg] at herr
    · rw [onPlayerMove_validate_true s p mv hturn hsum hv] at hstep
      injection hstep with hstep
      have hst : st' =
          (finishMove
            { s with gameField :=
                (fillField mv.color s.gameField mv.fromPos.row mv.fromPos.col
                  mv.toPos.row mv.toPos.col) } p mv).1 :=
        (congrArg Prod.fst hstep).symm
      obtain ⟨hg, hsp, hso, hcm⟩ := finishMove_state_facts
        { s with gameField :=
            (fillField mv.color s.gameField mv.fromPos.row mv.fromPos.col
              mv.toPos.row mv.toPos.col) } p mv
      refine ⟨rfl, ?_, ?_, ?_, ?_⟩
      · rw [hst, hg]
      · rw [hst, hsp, scoreOf_set_gameField]
      · rw [hst, hso, scoreOf_set_gameField]
      · rw [hst, hcm]

def c1badMove : PlayerState :=
  { fromPos := ⟨5, 5⟩, toPos := ⟨9, 9⟩, color := "r", sum := 7, dices := (3, 4) }

def c1badOut : List (Fin 2 × ServerMessage) :=
  [(1, ServerMessage.changePlayer true generateField "b"),
   (0, ServerMessage.changePlayer false generateField "r")]

/-- C1 counterexample: a turn-holder's move with `sum = 7` from interior
cell `(5,5)` — which the validator would reject — is processed with no
validation at all: the score is bumped to 7 and the turn flips, so an
accepted move did update score and turn without validation having been
performed. -/
theorem C1_counterexample :
    resolveAndValidate startState.gameField c1badMove = some false
    ∧ onPlayerMove startState 0 c1badMove =
        some ({ gameField := generateField, score0 := 7, score1 := 0,
                currentMove := 1 }, c1badOut)
    ∧ hasError c1badOut = false := by
  refine ⟨by decide, by decide, by decide⟩

def c1goodMove : PlayerState :=
  { fromPos := ⟨0, 0⟩, toPos := ⟨2, 1⟩, color := "r", sum := 0, dices := (3, 3) }

def c1goodState : GameState :=
  { gameField := fillField "r" generateField 0 0 2 1, score0 := 6, score1 := 0,
    currentMove := 1 }

def c1goodOut : List (Fin 2 × ServerMessage) :=
  [(1, ServerMessage.changePlayer true (fillField "r" generateField 0 0 2 1) "b"),
   (0, ServerMessage.changePlayer false (fillField "r" generateField 0 0 2 1) "r")]

/-- Witness for C1 on a legal first move from corner `(0,0)` to `(2,1)`
with dice `3, 3`. -/
theorem C1_validation_gates_sum_zero_moves_witness :
    resolveAndValidate startState.gameField c1goodMove = some true
    ∧ c1goodState.gameField = fillField c1goodMove.color startState.gameField
        c1goodMove.fromPos.row c1goodMove.fromPos.col c1goodMove.toPos.row
        c1goodMove.toPos.col
    ∧ scoreOf c1goodState 0 = scoreOf startState 0 + c1goodMove.dices.1 + c1goodMove.dices.2
    ∧ scoreOf c1goodState (otherPlayer 0) = scoreOf startState (otherPlayer 0)
    ∧ c1goodState.currentMove = otherPlayer 0 :=
  (C1_validation_gates_sum_zero_moves startState 0 c1goodMove rfl rfl).2
    c1goodState c1goodOut (by decide) (by decide)

theorem eq_otherPlayer_of_ne (p q : Fin 2) (h : q ≠ p) : q = otherPlayer p := by
  fin_cases p <;> fin_cases q <;> revert h <;> decide

/-- C4: any `playerMove` whose outbound round reports no error was sent by
the turn-holder and hands the turn to the other seat; an immediate retry by
the same sender — and in general any sender the turn pointer does not
designate — is rejected `Not your turn` with the state unchanged. -/
theorem C4_turn_alternation (s : GameState) (p : Fin 2) (mv : PlayerState)
    (st' : GameState) (out : List (Fin 2 × ServerMessage))
    (hstep : onPlayerMove s p mv = some (st', out))
    (hacc : hasError out = false) :
    s.currentMove = p
    ∧ st'.currentMove = otherPlayer p
    ∧ otherPlayer p ≠ p
    ∧ (∀ mv2, onPlayerMove st' p mv2 =
        some (st', [(p, ServerMessage.incorrectRequest "Not your turn")]))
    ∧ (∀ (s2 : GameState) (q : Fin 2) (mv2 : PlayerState), s2.currentMove ≠ q →
        onPlayerMove s2 q mv2 =
          some (s2, [(q, ServerMessage.incorrectRequest "Not your turn")])) := by
  rcases onPlayerMove_spec s p mv st' out hstep with ⟨hs, m, hout⟩ | ⟨hturn, f2, hfm⟩
  · rw [hout] at hacc
    simp [hasError, isErrorMsg] at hacc
  · have hst : st' = (finishMove { s with gameField := f2 } p mv).1 :=
      congrArg Prod.fst hfm
    have hcm : st'.currentMove = otherPlayer p := by rw [hst, finishMove_fst]
    refine ⟨hturn, hcm, otherPlayer_ne p, ?_, ?_⟩
    · intro mv2
      exact onPlayerMove_not_turn st' p mv2 (by rw [hcm]; exact otherPlayer_ne p)
    · intro s2 q mv2 hne
      exact onPlayerMove_not_turn s2 q mv2 hne

/-- Witness for C4 on the legal first move from `(0,0)` to `(2,1)`. -/
theorem C4_turn_alternation_witness :
    startState.currentMove = 0
    ∧ c1goodState.currentMove = otherPlayer 0
    ∧ otherPlayer 0 ≠ 0 := by
  have h := C4_turn_alternation startState 0 c1goodMove c1goodState c1goodOut
    (by decide) (by decide)
  exact ⟨h.1, h.2.1, h.2.2.1⟩

theorem onPlayerMove_score_effect (s : GameState) (p : Fin 2) (mv : PlayerState)
    (st' : GameState) (out : List (Fin 2 × ServerMessage))
    (hstep : onPlayerMove s p mv = some (st', out)) (q : Fin 2) :
    scoreOf st' q = scoreOf s q +
      (if hasError out = false ∧ q = p then mv.dices.1 + mv.dices.2 else 0) := by
  rcases onPlayerMove_spec s p mv st' out hstep with ⟨hs, m, hout⟩ | ⟨hturn, f2, hfm⟩
  · subst hs
    rw [hout]
    simp [hasError, isErrorMsg]
  · have hst : st' = (finishMove { s with gameField := f2 } p mv).1 :=
      congrArg Prod.fst hfm
    have hout2 : out = (finishMove { s with gameField := f2 } p mv).2 :=
      congrArg Prod.snd hfm
    have herr : hasError out = false := by
      rw [hout2]; exact finishMove_hasError _ _ _
    obtain ⟨hg, hsp, hso, hcm⟩ := finishMove_state_facts
      { s with gameField := f2 } p mv
    by_cases hq : q = p
    · subst hq
      rw [hst, hsp, scoreOf_set_gameField, if_pos ⟨herr, rfl⟩]
      omega
    · rw [hst, eq_otherPlayer_of_ne p q hq, hso, scoreOf_set_gameField,
        if_neg (fun hcon => otherPlayer_ne p hcon.2)]
      omega

/-- C5: along any crash-free trace of `playerMove` events, each seat's
cumulative score grows by exactly the sum of `dices[0] + dices[1]` over
that seat's accepted moves (those whose message round reported no error). -/
theorem C5_score_is_sum_of_dice_totals (evs : List (Fin 2 × PlayerState))
    (s sf : GameState) (acc : List (Fin 2 × PlayerState))
    (h : runTrace s evs = some (sf, acc)) (q : Fin 2) :
    scoreOf sf q = scoreOf s q +
      ((acc.filter (fun e => e.1 = q)).map
        (fun e => e.2.dices.1 + e.2.dices.2)).sum := by
  induction evs generalizing s acc with
  | nil =>
    simp [runTrace] at h
    obtain ⟨rfl, rfl⟩ := h
    simp
  | cons ev rest ih =>
    rcases ev with ⟨p, mv⟩
    simp only [runTrace] at h
    rcases h1 : onPlayerMove s p mv with _ | ⟨s1, out⟩ <;> rw [h1] at h <;>
      dsimp only at h
    · simp at h
    · rcases h2 : runTrace s1 rest with _ | ⟨sf2, acc2⟩ <;> rw [h2] at h <;>
        dsimp only at h
      · simp at h
      · simp only [Option.some.injEq, Prod.mk.injEq] at h
        obtain ⟨rfl, hacc⟩ := h
        have hscore := onPlayerMove_score_effect s p mv s1 out h1 q
        have hrest := ih s1 acc2 h2
        cases herr : hasError out with
        | true =>
          rw [herr, if_pos rfl] at hacc
          rw [herr] at hscore
          simp only [Bool.true_eq_false, false_and, if_false] at hscore
          rw [← hacc]
          omega
        | false =>
          rw [herr, if_neg (by simp)] at hacc
          rw [herr] at hscore
          rw [← hacc]
          by_cases hqp : p = q
          · subst hqp
            have hfc : List.filter (fun e => decide (e.1 = p)) ((p, mv) :: acc2)
                = (p, mv) :: List.filter (fun e => decide (e.1 = p)) acc2 := by
              simp
            rw [hfc, List.map_cons, List.sum_cons]
            rw [if_pos ⟨rfl, rfl⟩] at hscore
            dsimp only
            omega
          · have hfc : List.filter (fun e => decide (e.1 = q)) ((p, mv) :: acc2)
                = List.filter (fun e => decide (e.1 = q)) acc2 := by
              simp [hqp]
            rw [hfc]
            rw [if_neg (fun hcon => hqp hcon.2.symm)] at hscore
            omega

def c5move1 : PlayerState :=
  { fromPos := ⟨0, 0⟩, toPos := ⟨0, 0⟩, color := "r", sum := 5, dices := (2, 3) }

def c5move2 : PlayerState :=
  { fromPos := ⟨0, 0⟩, toPos := ⟨0, 0⟩, color := "b", sum := 5, dices := (1, 4) }

def c5final : GameState :=
  { gameField := generateField, score0 := 5, score1 := 5, currentMove := 0 }

def c5acc : List (Fin 2 × PlayerState) := [(0, c5move1), (1, c5move2)]

/-- Witness for C5 on a two-move trace with dice totals 5 and 5. -/
theorem C5_score_is_sum_of_dice_totals_witness :
    scoreOf c5final 0 = scoreOf startState 0 +
      ((c5acc.filter (fun e => e.1 = 0)).map
        (fun e => e.2.dices.1 + e.2.dices.2)).sum :=
  C5_score_is_sum_of_dice_totals [(0, c5move1), (1, c5move2)] startState c5final
    c5acc (by decide) 0

/-- C6: after any accepted move, when either updated score meets the win
threshold the round is the `gameResult` broadcast to both seats, each
recipient's `win` flag computed independently from that recipient's own
score (`checkWin`, i.e. score ≥ 450); when neither has won, the round is
the two `changePlayer` messages instead. -/
theorem C6_win_broadcast (s : GameState) (p : Fin 2) (mv : PlayerState)
    (st' : GameState) (out : List (Fin 2 × ServerMessage))
    (hstep : onPlayerMove s p mv = some (st', out))
    (hacc : hasError out = false) :
    (∀ x : Int, checkWin x = true ↔ 450 ≤ x)
    ∧ ((checkWin (scoreOf st' 0) || checkWin (scoreOf st' 1)) = true →
        out = [(0, ServerMessage.gameResult (checkWin (scoreOf st' 0))),
               (1, ServerMessage.gameResult (checkWin (scoreOf st' 1)))])
    ∧ ((checkWin (scoreOf st' 0) || checkWin (scoreOf st' 1)) = false →
        out = [(otherPlayer p, ServerMessage.changePlayer true st'.gameField
                  (if mv.color = "r" then "b" else "r")),
               (p, ServerMessage.changePlayer false st'.gameField mv.color)]) := by
  rcases onPlayerMove_spec s p mv st' out hstep with ⟨hs, m, houtr⟩ | ⟨hturn, f2, hfm⟩
  · rw [houtr] at hacc
    simp [hasError, isErrorMsg] at hacc
  · have hst : st' = (finishMove { s with gameField := f2 } p mv).1 :=
      congrArg Prod.fst hfm
    have hout2 : out = (finishMove { s with gameField := f2 } p mv).2 :=
      congrArg Prod.snd hfm
    refine ⟨fun x => by simp [checkWin], ?_, ?_⟩
    · intro hw
      rw [hout2, finishMove_snd, ← hst, if_pos hw]
    · intro hw
      rw [hout2, finishMove_snd, ← hst, if_neg (by simp [hw])]

def c6state : GameState :=
  { gameField := generateField, score0 := 448, score1 := 0, currentMove := 0 }

def c6move : PlayerState :=
  { fromPos := ⟨0, 0⟩, toPos := ⟨0, 0⟩, color := "r", sum := 7, dices := (3, 4) }

def c6final : GameState :=
  { gameField := generateField, score0 := 455, score1 := 0, currentMove := 1 }

def c6out : List (Fin 2 × ServerMessage) :=
  [(0, ServerMessage.gameResult true), (1, ServerMessage.gameResult false)]

/-- Witness for C6: a move taking seat 0 from 448 to 455 triggers the
`gameResult` broadcast with independently computed flags. -/
theorem C6_win_broadcast_witness :
    c6out = [(0, ServerMessage.gameResult (checkWin (scoreOf c6final 0))),
             (1, ServerMessage.gameResult (checkWin (scoreOf c6final 1)))] :=
  (C6_win_broadcast c6state 0 c6move c6final c6out (by decide) (by decide)).2.1
    (by decide)

/-- C7: every protocol error (non-string payload, JSON parse failure,
unknown message type, out-of-turn move) and every rule violation (a
`sum = 0` move failing anchor/reachability/emptiness validation) produces
exactly one `incorrectRequest` message addressed to the offending sender,
and leaves the board, both scores, and the turn pointer unchanged. -/
theorem C7_errors_to_sender_only (s : GameState) (p : Fin 2) :
    (handleData s p RawData.notString
      = some (s, [(p, ServerMessage.incorrectRequest "Wrong data type")]))
    ∧ (∀ e, handleData s p (RawData.badJson e)
      = some (s, [(p, ServerMessage.incorrectRequest ("Cant parse JSON data: " ++ e))]))
    ∧ (∀ t, processMessage s p (ClientMessage.unknownType t)
      = some (s, [(p, ServerMessage.incorrectRequest
          ("Unknown message type: \x22" ++ t ++ "\x22"))]))
    ∧ (∀ mv, s.currentMove ≠ p →
        processMessage s p (ClientMessage.playerMove mv)
        = some (s, [(p, ServerMessage.incorrectRequest "Not your turn")]))
    ∧ (∀ mv, s.currentMove = p → mv.sum = 0 →
        resolveAndValidate s.gameField mv = some false →
        processMessage s p (ClientMessage.playerMove mv)
        = some (s, [(p, ServerMessage.incorrectRequest "wrong move")])) := by
  refine ⟨rfl, fun e => rfl, fun t => rfl, ?_, ?_⟩
  · intro mv hne
    exact onPlayerMove_not_turn s p mv hne
  · intro mv hturn hsum hv
    exact onPlayerMove_validate_false s p mv hturn hsum hv

def c7wrongMove : PlayerState :=
  { fromPos := ⟨5, 5⟩, toPos := ⟨9, 9⟩, color := "r", sum := 0, dices := (3, 4) }

/-- Witness for C7: an out-of-turn move by seat 1 and a rule-violating
`sum = 0` move by seat 0, each answered by a single error to the sender
with the state unchanged. -/
theorem C7_errors_to_sender_only_witness :
    processMessage startState 1 (ClientMessage.playerMove c7wrongMove)
      = some (startState, [(1, ServerMessage.incorrectRequest "Not your turn")])
    ∧ processMessage startState 0 (ClientMessage.playerMove c7wrongMove)
      = some (startState, [(0, ServerMessage.incorrectRequest "wrong move")])
    ∧ handleData startState 0 RawData.notString
      = some (startState, [(0, ServerMessage.incorrectRequest "Wrong data type")]) :=
  ⟨(C7_errors_to_sender_only startState 1).2.2.2.1 c7wrongMove (by decide),
   (C7_errors_to_sender_only startState 0).2.2.2.2 c7wrongMove rfl rfl (by decide),
   (C7_errors_to_sender_only startState 0).1⟩

theorem filterMap_if_const {α β : Type} (c : α → Bool) (x : β) (l : List α) :
    l.filterMap (fun a => if c a then some x else none)
      = (l.filter c).map (fun _ => x) := by
  induction l with
  | nil => rfl
  | cons hd tl ih =>
    by_cases h : c hd
    · simp [List.filterMap_cons, List.filter_cons, h, ih]
    · simp [List.filterMap_cons, List.filter_cons, h, ih]

/-- C8: session teardown is idempotent — a second `destroy`, whether from a
close event or a direct call, returns the state unchanged and sends
nothing; the first invocation sends exactly one `gameAborted` per
participant whose socket is neither closing nor closed (and the model is a
total function, so no invocation throws). -/
theorem C8_destroy_idempotent (sess : Session) :
    destroy (destroy sess).1 = ((destroy sess).1, [])
    ∧ (∀ m ∈ (destroy sess).2, m = ServerMessage.gameAborted)
    ∧ (destroy sess).2.length =
        (if sess.destroyed then 0
         else (sess.players.filter isNotClosingOrClosed).length) := by
  by_cases hd : sess.destroyed
  · refine ⟨?_, ?_, ?_⟩ <;> simp [destroy, hd]
  · refine ⟨?_, ?_, ?_⟩
    · simp [destroy, hd]
    · intro m hm
      simp only [destroy, if_neg hd] at hm
      obtain ⟨a, ha, hfa⟩ := List.mem_filterMap.1 hm
      by_cases hca : isNotClosingOrClosed a
      · rw [if_pos hca] at hfa
        injection hfa with hfa
        exact hfa.symm
      · rw [if_neg hca] at hfa
        cases hfa
    · simp [destroy, hd, filterMap_if_const]

def c8session : Session :=
  { destroyed := false, players := [ReadyState.opened, ReadyState.opened] }

/-- Witness for C8 on a fresh two-player session with both sockets open. -/
theorem C8_destroy_idempotent_witness :
    destroy (destroy c8session).1 = ((destroy c8session).1, []) :=
  (C8_destroy_idempotent c8session).1

/-- C9: a turn-holder's `playerMove` with nonzero `sum` is processed with
no validation at all: the outcome is independent of `from` and `to`, the
board is left unchanged, yet the sender's score still grows by the dice
total, the turn flips, and the win check runs on the updated scores. -/
theorem C9_sum_nonzero_skips_validation (s : GameState) (p : Fin 2)
    (mv : PlayerState) (hturn : s.currentMove = p) (hsum : mv.sum ≠ 0) :
    onPlayerMove s p mv = some (finishMove s p mv)
    ∧ (finishMove s p mv).1.gameField = s.gameField
    ∧ scoreOf (finishMove s p mv).1 p = scoreOf s p + mv.dices.1 + mv.dices.2
    ∧ scoreOf (finishMove s p mv).1 (otherPlayer p) = scoreOf s (otherPlayer p)
    ∧ (finishMove s p mv).1.currentMove = otherPlayer p
    ∧ hasError (finishMove s p mv).2 = false
    ∧ (∀ a b : Coord,
        onPlayerMove s p { mv with fromPos := a, toPos := b } = onPlayerMove s p mv) := by
  obtain ⟨hg, hsp, hso, hcm⟩ := finishMove_state_facts s p mv
  refine ⟨onPlayerMove_skip_validation s p mv hturn hsum, hg, hsp, hso, hcm,
    finishMove_hasError s p mv, ?_⟩
  intro a b
  rw [onPlayerMove_skip_validation s p mv hturn hsum,
    onPlayerMove_skip_validation s p { mv with fromPos := a, toPos := b } hturn hsum]
  rfl

/-- Witness for C9 on the `sum = 7` move from interior cell `(5,5)`. -/
theorem C9_sum_nonzero_skips_validation_witness :
    onPlayerMove startState 0 c1badMove = some (finishMove startState 0 c1badMove)
    ∧ (finishMove startState 0 c1badMove).1.gameField = startState.gameField
    ∧ scoreOf (finishMove startState 0 c1badMove).1 0 =
        scoreOf startState 0 + c1badMove.dices.1 + c1badMove.dices.2
    ∧ scoreOf (finishMove startState 0 c1badMove).1 (otherPlayer 0) =
        scoreOf startState (otherPlayer 0)
    ∧ (finishMove startState 0 c1badMove).1.currentMove = otherPlayer 0
    ∧ hasError (finishMove startState 0 c1badMove).2 = false
    ∧ (∀ a b : Coord,
        onPlayerMove startState 0 { c1badMove with fromPos := a, toPos := b }
          = onPlayerMove startState 0 c1badMove) :=
  C9_sum_nonzero_skips_validation startState 0 c1badMove rfl (by decide)

/-- Witness for C10 at corner `(0,0)`, dice `3, 3`, target `(2,1)`. -/
theorem C10_corner_reachable_targets_in_grid_witness :
    checkTo (showMoves (factorization (3 + 3))
        (if (0 : Int) = 0 then "+" else "-") (if (0 : Int) = 0 then "+" else "-") 0 0)
      2 1 = true
    ∧ ((0 : Int) ≤ 2 ∧ (2 : Int) < 30 ∧ (0 : Int) ≤ 1 ∧ (1 : Int) < 30) :=
  ⟨by decide,
   (C10_corner_reachable_targets_in_grid 0 0 3 3 2 1 (Or.inl rfl) (Or.inl rfl)
      (by decide) (by decide) (by decide)).1⟩

end WebGame
